import Mathlib

/-!
Verification of the package-initialization module `pybinding/__init__.py`.

The module body is embedded shallowly as a list of statements executed over a
state consisting of the process-wide dynamic-loader flags (`dlopenflags`, a
natural number treated as a bit mask), the module namespace (an association
list from names to values, most recent binding first), and a trace of the
loader-relevant events performed so far.

The outside world is a parameter `Env`: the `sys.platform` string, the initial
`sys.getdlopenflags()` value, which modules can be imported successfully, what
attributes each module exports, and the set of names contributed by the
wildcard `from .modifier import *`.
-/

namespace Pybinding

/-- A Python runtime object, as far as this module can observe one: either a
module object (identified by its dotted module name) or some other object
supplied by a submodule's namespace. -/
inductive PyObj where
  | module (modName : String)
  | obj (id : Nat)
deriving DecidableEq, Repr

/-- Loader-relevant events performed while the module body runs: a module
load (recording the dlopenflags in force when the load happens) and a
`sys.setdlopenflags` call (recording the value written). -/
inductive Event where
  | importMod (modName : String) (flags : Nat)
  | setFlags (newFlags : Nat)
deriving DecidableEq, Repr

/-- The mutable state the module body acts on: the process-wide dlopenflags,
the bindings of the package's top-level namespace (most recent first), and the
trace of events so far. -/
structure PyState where
  dlopenflags : Nat
  names : List (String × PyObj)
  trace : List Event
deriving DecidableEq, Repr

/-- The environment the import runs in: `sys.platform`, the initial
`sys.getdlopenflags()` value, which modules import successfully, the
attributes of each module (by module name and attribute name), and the names
contributed by `from .modifier import *`. -/
structure Env where
  platform : String
  initialFlags : Nat
  moduleOk : String → Bool
  moduleAttr : String → String → Option PyObj
  modifierAll : List String

/-- The value of os.RTLD_GLOBAL on Linux (glibc), the only platform on which
the source reads it: bit 8, value 0x100. -/
def RTLD_GLOBAL : Nat := 256

/-- The platform test of line 3, sys.platform.startswith("linux"): a prefix
test on the characters of the platform identifier. -/
def platformIsLinux (p : String) : Bool :=
  "linux".data.isPrefixOf p.data

/-- The top-level package of a dotted module name; `import a.b.c` binds `a`. -/
def topPackageName (modName : String) : String :=
  String.mk (modName.data.takeWhile (fun c => c != '.'))

/-- The statements the module body consists of:
`import m` (binds the top-level package name),
`import m as a` (binds `a`; also used for `from . import sub`, which binds
`sub` to the module `pybinding.sub`),
`from m import n₁, n₂, ...` (binds each listed name to the module's
attribute), and
`sys.setdlopenflags(sys.getdlopenflags() | mask)`. -/
inductive Stmt where
  | importPlain (modName : String)
  | importAs (modName asName : String)
  | fromImport (modName : String) (importedNames : List String)
  | setFlagsOr (mask : Nat)
deriving DecidableEq, Repr

/-- Add a binding to the namespace (newest first, so it shadows older ones). -/
def PyState.bindName (st : PyState) (n : String) (v : PyObj) : PyState :=
  { st with names := (n, v) :: st.names }

/-- Record that a module was imported under the current dlopenflags. -/
def PyState.logImport (st : PyState) (modName : String) : PyState :=
  { st with trace := st.trace ++ [Event.importMod modName st.dlopenflags] }

/-- Bind each name of a `from m import ...` statement to the corresponding
attribute of `m`; a missing attribute raises `ImportError`. -/
def fromImportNames (env : Env) (modName : String) (st : PyState) :
    List String → Except String PyState
  | [] => Except.ok st
  | n :: rest =>
    match env.moduleAttr modName n with
    | some v => fromImportNames env modName (st.bindName n v) rest
    | none => Except.error ("cannot import name " ++ n)

/-- The parent-package binding a submodule load creates in the package's own
namespace (Python reference, "Submodules"): loading a submodule of the
package binds the first name component after the package prefix there, to
that direct child module.  For "pybinding.support.pickle" the binding is
"support", bound to the module "pybinding.support"; for a module outside the
package there is none. -/
def pkgChildName (modName : String) : Option String :=
  if "pybinding.".data.isPrefixOf modName.data then
    some (String.mk ((modName.data.drop "pybinding.".data.length).takeWhile
      (fun c => c != '.')))
  else none

/-- One statement of the module body.  Importing a module that fails to load
raises `ImportError`; a successful import is recorded in the trace together
with the dlopenflags in force at load time.  A `from`-import of a submodule
of the package first creates the parent-package binding for that submodule
in the package namespace, then binds the listed names. -/
def execStmt (env : Env) (st : PyState) : Stmt → Except String PyState
  | Stmt.importPlain modName =>
    if env.moduleOk modName then
      Except.ok ((st.logImport modName).bindName (topPackageName modName)
        (PyObj.module (topPackageName modName)))
    else Except.error ("No module named " ++ modName)
  | Stmt.importAs modName asName =>
    if env.moduleOk modName then
      Except.ok ((st.logImport modName).bindName asName (PyObj.module modName))
    else Except.error ("No module named " ++ modName)
  | Stmt.fromImport modName importedNames =>
    if env.moduleOk modName then
      match pkgChildName modName with
      | some c =>
        fromImportNames env modName
          ((st.logImport modName).bindName c (PyObj.module ("pybinding." ++ c)))
          importedNames
      | none => fromImportNames env modName (st.logImport modName) importedNames
    else Except.error ("No module named " ++ modName)
  | Stmt.setFlagsOr mask =>
    Except.ok { st with
      dlopenflags := st.dlopenflags ||| mask,
      trace := st.trace ++ [Event.setFlags (st.dlopenflags ||| mask)] }

/-- Run a list of statements in order; the first failure aborts the run and
propagates the error. -/
def runStmts (env : Env) (st : PyState) : List Stmt → Except String PyState
  | [] => Except.ok st
  | s :: rest =>
    match execStmt env st s with
    | Except.ok st' => runStmts env st' rest
    | Except.error e => Except.error e

/-- The twelve submodules imported by `from . import (...)`. -/
def submoduleNames : List String :=
  ["constants", "electric", "greens", "lattice", "model", "parallel",
   "pltutils", "results", "shape", "solver", "symmetry", "system"]

/-- The body of `pybinding/__init__.py`, statement by statement:
`import os`, `import sys`, the Linux-only block
(`import scipy.sparse.linalg` then
`sys.setdlopenflags(sys.getdlopenflags() | os.RTLD_GLOBAL)`),
`import _pybinding as _cpp`, the six `from`-imports, and
`from . import (constants, ..., system)`. -/
def body (env : Env) : List Stmt :=
  [Stmt.importPlain "os", Stmt.importPlain "sys"]
  ++ (if platformIsLinux env.platform then
        [Stmt.importPlain "scipy.sparse.linalg", Stmt.setFlagsOr RTLD_GLOBAL]
      else [])
  ++ [Stmt.importAs "_pybinding" "_cpp",
      Stmt.fromImport "pybinding.model" ["Model"],
      Stmt.fromImport "pybinding.lattice" ["Lattice", "make_lattice"],
      Stmt.fromImport "pybinding.modifier" env.modifierAll,
      Stmt.fromImport "pybinding.results" ["make_path"],
      Stmt.fromImport "pybinding.support.pickle" ["save", "load"],
      Stmt.fromImport "pybinding.parallel" ["parallel_for", "parallelize"]]
  ++ submoduleNames.map (fun s => Stmt.importAs ("pybinding." ++ s) s)

/-- The state at the start of the module body: the environment's initial
dlopenflags, an empty namespace, an empty trace. -/
def initialState (env : Env) : PyState :=
  { dlopenflags := env.initialFlags, names := [], trace := [] }

/-- Importing the package: run the module body from the initial state. -/
def pybindingInit (env : Env) : Except String PyState :=
  runStmts env (initialState env) (body env)

/-- The names bound in the namespace of a state. -/
def boundNames (st : PyState) : List String :=
  st.names.map Prod.fst

/-- Look a name up in the namespace (most recent binding wins). -/
def lookupName (st : PyState) (n : String) : Option PyObj :=
  st.names.lookup n

/-- The attribute of a module, defaulted (used only under the hypothesis that
the attribute is present). -/
def attrVal (env : Env) (m a : String) : PyObj :=
  (env.moduleAttr m a).getD (PyObj.obj 0)

/-- All imports succeed and all requested attributes are present: the
environment in which the package import runs to completion. -/
def EnvOk (env : Env) : Prop :=
  (∀ m, env.moduleOk m = true) ∧ (∀ m a, (env.moduleAttr m a).isSome = true)

/-- Dlopenflags after the module body runs, given the starting value. -/
def bodyFlags (env : Env) (f0 : Nat) : Nat :=
  if platformIsLinux env.platform then f0 ||| RTLD_GLOBAL else f0

/-- The namespace bindings produced by a successful run of the module body
(most recent first), including the parent-package bindings "model",
"lattice", "modifier", "results", "support" and "parallel" created when the
`from`-imported submodules load. -/
def bodyBindings (env : Env) : List (String × PyObj) :=
  (submoduleNames.map (fun s => (s, PyObj.module ("pybinding." ++ s)))).reverse
  ++ [("parallelize", attrVal env "pybinding.parallel" "parallelize"),
      ("parallel_for", attrVal env "pybinding.parallel" "parallel_for"),
      ("parallel", PyObj.module "pybinding.parallel"),
      ("load", attrVal env "pybinding.support.pickle" "load"),
      ("save", attrVal env "pybinding.support.pickle" "save"),
      ("support", PyObj.module "pybinding.support"),
      ("make_path", attrVal env "pybinding.results" "make_path"),
      ("results", PyObj.module "pybinding.results")]
  ++ (env.modifierAll.map (fun n => (n, attrVal env "pybinding.modifier" n))).reverse
  ++ [("modifier", PyObj.module "pybinding.modifier"),
      ("make_lattice", attrVal env "pybinding.lattice" "make_lattice"),
      ("Lattice", attrVal env "pybinding.lattice" "Lattice"),
      ("lattice", PyObj.module "pybinding.lattice"),
      ("Model", attrVal env "pybinding.model" "Model"),
      ("model", PyObj.module "pybinding.model"),
      ("_cpp", PyObj.module "_pybinding")]
  ++ (if platformIsLinux env.platform then [("scipy", PyObj.module "scipy")]
      else [])
  ++ [("sys", PyObj.module "sys"), ("os", PyObj.module "os")]

/-- The trace of the statements after the platform-conditional block, all run
under dlopenflags `g`. -/
def postBranchTrace (g : Nat) : List Event :=
  [Event.importMod "_pybinding" g,
   Event.importMod "pybinding.model" g,
   Event.importMod "pybinding.lattice" g,
   Event.importMod "pybinding.modifier" g,
   Event.importMod "pybinding.results" g,
   Event.importMod "pybinding.support.pickle" g,
   Event.importMod "pybinding.parallel" g]
  ++ submoduleNames.map (fun s => Event.importMod ("pybinding." ++ s) g)

/-- The full event trace of a successful run of the module body, starting
from dlopenflags `f0`. -/
def bodyTrace (env : Env) (f0 : Nat) : List Event :=
  [Event.importMod "os" f0, Event.importMod "sys" f0]
  ++ (if platformIsLinux env.platform then
        [Event.importMod "scipy.sparse.linalg" f0,
         Event.setFlags (f0 ||| RTLD_GLOBAL)]
      else [])
  ++ postBranchTrace (bodyFlags env f0)

/-- The state after a successful package import. -/
def finalState (env : Env) : PyState :=
  { dlopenflags := bodyFlags env env.initialFlags,
    names := bodyBindings env,
    trace := bodyTrace env env.initialFlags }

/-- A `from`-import whose every attribute is present binds exactly the listed
names, in order, and touches neither the flags nor the trace. -/
theorem fromImportNames_ok (env : Env) (modName : String)
    (h : ∀ a, (env.moduleAttr modName a).isSome = true) :
    ∀ (ns : List String) (st : PyState),
      fromImportNames env modName st ns =
        Except.ok { st with
          names := (ns.map (fun n => (n, attrVal env modName n))).reverse
            ++ st.names } := by
  intro ns
  induction ns with
  | nil => intro st; simp [fromImportNames]
  | cons n rest ih =>
    intro st
    have hs := h n
    rcases ho : env.moduleAttr modName n with _ | v
    · rw [ho] at hs; simp at hs
    · simp only [fromImportNames, ho]
      rw [ih]
      simp [PyState.bindName, attrVal, ho]

/-- Running the whole module body from any state, in an environment where
all imports succeed, ends in the fully determined state: flags OR-ed on Linux,
the bindings of `bodyBindings` pushed onto the namespace, the events of
`bodyTrace` appended to the trace. -/
theorem runBody_ok (env : Env) (h1 : ∀ m, env.moduleOk m = true)
    (h2 : ∀ m a, (env.moduleAttr m a).isSome = true) (st : PyState) :
    runStmts env st (body env) =
      Except.ok { dlopenflags := bodyFlags env st.dlopenflags,
                  names := bodyBindings env ++ st.names,
                  trace := st.trace ++ bodyTrace env st.dlopenflags } := by
  have hm := fun modName => fromImportNames_ok env modName (h2 modName)
  have t1 : topPackageName "os" = "os" := by decide
  have t2 : topPackageName "sys" = "sys" := by decide
  have t3 : topPackageName "scipy.sparse.linalg" = "scipy" := by decide
  have p1 : pkgChildName "pybinding.model" = some "model" := by decide
  have p2 : pkgChildName "pybinding.lattice" = some "lattice" := by decide
  have p3 : pkgChildName "pybinding.modifier" = some "modifier" := by decide
  have p4 : pkgChildName "pybinding.results" = some "results" := by decide
  have p5 : pkgChildName "pybinding.support.pickle" = some "support" := by decide
  have p6 : pkgChildName "pybinding.parallel" = some "parallel" := by decide
  by_cases hp : platformIsLinux env.platform
  · simp [body, hp, submoduleNames, runStmts, execStmt, h1, hm, t1, t2, t3,
      p1, p2, p3, p4, p5, p6,
      PyState.bindName, PyState.logImport, bodyFlags, bodyBindings, bodyTrace,
      postBranchTrace, List.append_assoc]
  · simp [body, hp, submoduleNames, runStmts, execStmt, h1, hm, t1, t2,
      p1, p2, p3, p4, p5, p6,
      PyState.bindName, PyState.logImport, bodyFlags, bodyBindings, bodyTrace,
      postBranchTrace, List.append_assoc]

/-- A successful package import ends in `finalState`. -/
theorem init_ok (env : Env) (h : EnvOk env) :
    pybindingInit env = Except.ok (finalState env) := by
  have hrun := runBody_ok env h.1 h.2 (initialState env)
  simpa [pybindingInit, initialState, finalState] using hrun

/-- A `from`-import that returns normally has changed neither the
dlopenflags nor the trace. -/
theorem fromImportNames_flags_trace (env : Env) (modName : String) :
    ∀ (ns : List String) (st st' : PyState),
      fromImportNames env modName st ns = Except.ok st' →
      st'.dlopenflags = st.dlopenflags ∧ st'.trace = st.trace := by
  intro ns
  induction ns with
  | nil =>
    intro st st' h
    simp [fromImportNames] at h
    subst h
    exact ⟨rfl, rfl⟩
  | cons n rest ih =>
    intro st st' h
    rcases ho : env.moduleAttr modName n with _ | v
    · simp [fromImportNames, ho] at h
    · simp only [fromImportNames, ho] at h
      exact ih (st.bindName n v) st' h

/-- A statement other than the `setdlopenflags` call leaves the dlopenflags
unchanged and adds no `setFlags` event to the trace. -/
theorem execStmt_no_setFlags (env : Env) (st st' : PyState) (s : Stmt)
    (hs : ∀ mask, s ≠ Stmt.setFlagsOr mask)
    (h : execStmt env st s = Except.ok st') :
    st'.dlopenflags = st.dlopenflags ∧
      ∀ v, Event.setFlags v ∈ st'.trace → Event.setFlags v ∈ st.trace := by
  cases s with
  | importPlain m =>
    rcases hok : env.moduleOk m with _ | _
    · simp [execStmt, hok] at h
    · simp [execStmt, hok] at h
      subst h
      refine ⟨rfl, ?_⟩
      intro v hv
      simp [PyState.bindName, PyState.logImport] at hv
      tauto
  | importAs m a =>
    rcases hok : env.moduleOk m with _ | _
    · simp [execStmt, hok] at h
    · simp [execStmt, hok] at h
      subst h
      refine ⟨rfl, ?_⟩
      intro v hv
      simp [PyState.bindName, PyState.logImport] at hv
      tauto
  | fromImport m ns =>
    rcases hok : env.moduleOk m with _ | _
    · simp [execStmt, hok] at h
    · rcases hc : pkgChildName m with _ | c
      · simp only [execStmt, hok, if_pos, hc] at h
        have hft := fromImportNames_flags_trace env m ns (st.logImport m) st' h
        refine ⟨hft.1, ?_⟩
        intro v hv
        rw [hft.2] at hv
        simp [PyState.logImport] at hv
        tauto
      · simp only [execStmt, hok, if_pos, hc] at h
        have hft := fromImportNames_flags_trace env m ns
          ((st.logImport m).bindName c (PyObj.module ("pybinding." ++ c))) st' h
        refine ⟨hft.1, ?_⟩
        intro v hv
        rw [hft.2] at hv
        simp [PyState.bindName, PyState.logImport] at hv
        tauto
  | setFlagsOr mask => exact absurd rfl (hs mask)

/-- Running statements none of which is the `setdlopenflags` call leaves the
dlopenflags unchanged and adds no `setFlags` event to the trace. -/
theorem runStmts_no_setFlags (env : Env) :
    ∀ (stmts : List Stmt), (∀ mask, Stmt.setFlagsOr mask ∉ stmts) →
      ∀ (st st' : PyState), runStmts env st stmts = Except.ok st' →
        st'.dlopenflags = st.dlopenflags ∧
          ∀ v, Event.setFlags v ∈ st'.trace → Event.setFlags v ∈ st.trace := by
  intro stmts
  induction stmts with
  | nil =>
    intro _ st st' h
    simp [runStmts] at h
    subst h
    exact ⟨rfl, fun _ hv => hv⟩
  | cons s rest ih =>
    intro hmask st st' h
    rcases hexec : execStmt env st s with e | st₁
    · simp [runStmts, hexec] at h
    · simp only [runStmts, hexec] at h
      have hmask1 : ∀ mask, s ≠ Stmt.setFlagsOr mask := by
        intro mask heq
        exact hmask mask (by simp [heq])
      have hmaskrest : ∀ mask, Stmt.setFlagsOr mask ∉ rest := by
        intro mask hmem
        exact hmask mask (by simp [hmem])
      have h1 := execStmt_no_setFlags env st st₁ s hmask1 hexec
      have h2 := ih hmaskrest st₁ st' h
      exact ⟨h2.1.trans h1.1, fun v hv => h1.2 v (h2.2 v hv)⟩

/-- No single statement ever clears bit 8 of the dlopenflags: imports leave
the flags alone and the `setdlopenflags` call only ORs bits in. -/
theorem execStmt_testBit8 (env : Env) (st st' : PyState) (s : Stmt)
    (hb : st.dlopenflags.testBit 8 = true)
    (h : execStmt env st s = Except.ok st') :
    st'.dlopenflags.testBit 8 = true := by
  cases s with
  | importPlain m =>
    rcases hok : env.moduleOk m with _ | _
    · simp [execStmt, hok] at h
    · simp [execStmt, hok] at h
      subst h
      simpa [PyState.bindName, PyState.logImport] using hb
  | importAs m a =>
    rcases hok : env.moduleOk m with _ | _
    · simp [execStmt, hok] at h
    · simp [execStmt, hok] at h
      subst h
      simpa [PyState.bindName, PyState.logImport] using hb
  | fromImport m ns =>
    rcases hok : env.moduleOk m with _ | _
    · simp [execStmt, hok] at h
    · rcases hc : pkgChildName m with _ | c
      · simp only [execStmt, hok, if_pos, hc] at h
        have hft := fromImportNames_flags_trace env m ns (st.logImport m) st' h
        rw [hft.1]
        simpa [PyState.logImport] using hb
      · simp only [execStmt, hok, if_pos, hc] at h
        have hft := fromImportNames_flags_trace env m ns
          ((st.logImport m).bindName c (PyObj.module ("pybinding." ++ c))) st' h
        rw [hft.1]
        simpa [PyState.bindName, PyState.logImport] using hb
  | setFlagsOr mask =>
    simp [execStmt] at h
    subst h
    simp [Nat.testBit_lor, hb]

/-- A successful statement's module was importable. -/
def stmtModule : Stmt → Option String
  | Stmt.importPlain m => some m
  | Stmt.importAs m _ => some m
  | Stmt.fromImport m _ => some m
  | Stmt.setFlagsOr _ => none

/-- If a statement returns normally, the module it imports was importable. -/
theorem execStmt_ok_moduleOk (env : Env) (st st' : PyState) (s : Stmt)
    (m : String) (hm : stmtModule s = some m)
    (h : execStmt env st s = Except.ok st') :
    env.moduleOk m = true := by
  cases s with
  | importPlain m' =>
    rcases hok : env.moduleOk m' with _ | _
    · simp [execStmt, hok] at h
    · simp [stmtModule] at hm
      subst hm
      exact hok
  | importAs m' a =>
    rcases hok : env.moduleOk m' with _ | _
    · simp [execStmt, hok] at h
    · simp [stmtModule] at hm
      subst hm
      exact hok
  | fromImport m' ns =>
    rcases hok : env.moduleOk m' with _ | _
    · simp [execStmt, hok] at h
    · simp [stmtModule] at hm
      subst hm
      exact hok
  | setFlagsOr mask => simp [stmtModule] at hm

/-- If running a statement list returns normally, every module imported by
one of its statements was importable. -/
theorem runStmts_ok_moduleOk (env : Env) :
    ∀ (stmts : List Stmt) (st st' : PyState),
      runStmts env st stmts = Except.ok st' →
      ∀ s ∈ stmts, ∀ m, stmtModule s = some m → env.moduleOk m = true := by
  intro stmts
  induction stmts with
  | nil => intro st st' h s hs; simp at hs
  | cons s₀ rest ih =>
    intro st st' h s hs m hm
    rcases hexec : execStmt env st s₀ with e | st₁
    · simp [runStmts, hexec] at h
    · simp only [runStmts, hexec] at h
      rcases List.mem_cons.mp hs with hs | hs
      · subst hs
        exact execStmt_ok_moduleOk env st st₁ s m hm hexec
      · exact ih st₁ st' h s hs m hm

/-- Looking up a key bound in none of the earlier pairs skips them. -/
theorem lookup_append_of_not_mem (k : String) :
    ∀ (l₁ l₂ : List (String × PyObj)), k ∉ l₁.map Prod.fst →
      (l₁ ++ l₂).lookup k = l₂.lookup k := by
  intro l₁
  induction l₁ with
  | nil => intro l₂ _; simp
  | cons p rest ih =>
    intro l₂ h
    simp only [List.map_cons, List.mem_cons] at h
    push_neg at h
    have hk : (k == p.1) = false := by
      simp [h.1]
    simp [List.lookup, hk, ih l₂ h.2]

/-- Looking up a key present in a self-keyed map yields the mapped value. -/
theorem lookup_map_self (k : String) (f : String → PyObj) :
    ∀ (l : List String), k ∈ l →
      (l.map (fun x => (x, f x))).lookup k = some (f k) := by
  intro l
  induction l with
  | nil => intro h; simp at h
  | cons a rest ih =>
    intro h
    by_cases hk : k = a
    · subst hk
      simp [List.lookup]
    · have hk' : (k == a) = false := by simp [hk]
      rcases List.mem_cons.mp h with h | h
      · exact absurd h hk
      · simp [List.lookup, hk', ih h]

/-- If the key is bound in the first list, lookup stays there. -/
theorem lookup_append_left (k : String) :
    ∀ (l₁ l₂ : List (String × PyObj)) (v : PyObj),
      l₁.lookup k = some v → (l₁ ++ l₂).lookup k = some v := by
  intro l₁
  induction l₁ with
  | nil => intro l₂ v h; simp [List.lookup] at h
  | cons p rest ih =>
    intro l₂ v h
    rcases hk : (k == p.1) with _ | _
    · rw [List.cons_append]
      cases p
      simp [List.lookup, hk] at h ⊢
      exact ih l₂ v h
    · cases p
      simp [List.lookup, hk] at h ⊢
      exact h

/-- When every attribute is present, the defaulted attribute is the real one. -/
theorem some_attrVal (env : Env)
    (h2 : ∀ m a, (env.moduleAttr m a).isSome = true) (m a : String) :
    some (attrVal env m a) = env.moduleAttr m a := by
  have hs := h2 m a
  rcases ho : env.moduleAttr m a with _ | v
  · rw [ho] at hs; simp at hs
  · simp [attrVal, ho]

/-- A key not contributed by the modifier wildcard skips its bindings. -/
theorem lookup_modifier_skip (env : Env) (k : String) (hk : k ∉ env.modifierAll)
    (rest : List (String × PyObj)) :
    ((env.modifierAll.map (fun x => (x, attrVal env "pybinding.modifier" x))).reverse
      ++ rest).lookup k = rest.lookup k := by
  apply lookup_append_of_not_mem
  intro hmem
  apply hk
  simpa [List.map_reverse, List.map_map, List.mem_reverse, List.mem_map,
    Function.comp] using hmem

/-- A concrete Linux environment (platform "linux2") in which every import
succeeds; the modifier wildcard contributes one name. -/
def envLinux2 : Env :=
  { platform := "linux2", initialFlags := 5,
    moduleOk := fun _ => true,
    moduleAttr := fun m a => some (PyObj.obj (m.length + a.length)),
    modifierAll := ["constant_potential"] }

/-- A concrete non-Linux environment in which every import succeeds. -/
def envDarwin : Env :=
  { platform := "darwin", initialFlags := 5,
    moduleOk := fun _ => true,
    moduleAttr := fun m a => some (PyObj.obj (m.length + a.length)),
    modifierAll := [] }

/-- A concrete Linux environment in which the submodule `pybinding.solver`
fails to import and everything else succeeds. -/
def envBrokenSolver : Env :=
  { platform := "linux2", initialFlags := 5,
    moduleOk := fun m => !(m == "pybinding.solver"),
    moduleAttr := fun m a => some (PyObj.obj (m.length + a.length)),
    modifierAll := [] }

/-- C3: on a non-Linux platform, for every starting value of the dlopenflags,
every run of every prefix of the module body leaves the flags equal to the
starting value and performs no flag write: no `setFlags` event appears in the
trace at any point of the run. -/
theorem c3_nonlinux_flags_untouched (env : Env)
    (hnl : platformIsLinux env.platform = false) (n : Nat) (st' : PyState)
    (hrun : runStmts env (initialState env) ((body env).take n) = Except.ok st') :
    st'.dlopenflags = env.initialFlags ∧ ∀ v, Event.setFlags v ∉ st'.trace := by
  have hnos : ∀ mask, Stmt.setFlagsOr mask ∉ body env := by
    intro mask
    simp [body, hnl, submoduleNames]
  have hnost : ∀ mask, Stmt.setFlagsOr mask ∉ (body env).take n := by
    intro mask hmem
    exact hnos mask (List.take_subset n (body env) hmem)
  have h := runStmts_no_setFlags env ((body env).take n) hnost
    (initialState env) st' hrun
  refine ⟨by simpa [initialState] using h.1, ?_⟩
  intro v hv
  have hin := h.2 v hv
  simp [initialState] at hin

/-- C3 witness: the concrete non-Linux environment, whole body (take 24). -/
theorem c3_witness :
    (finalState envDarwin).dlopenflags = envDarwin.initialFlags
    ∧ ∀ v, Event.setFlags v ∉ (finalState envDarwin).trace :=
  c3_nonlinux_flags_untouched envDarwin (by decide) 24 (finalState envDarwin)
    (by rfl)

/-- C4: if the compiled extension `_pybinding`, any of the twelve submodules,
or one of the other imported sibling modules fails to load, then the package
fails to become available, with the propagated error: `pybindingInit` returns
no state at all, only the error. -/
theorem c4_submodule_failure_fatal (env : Env) (m : String)
    (hm : m = "_pybinding"
      ∨ m ∈ submoduleNames.map (fun s => "pybinding." ++ s)
      ∨ m = "pybinding.modifier" ∨ m = "pybinding.support.pickle")
    (hfail : env.moduleOk m = false) :
    ∃ msg, pybindingInit env = Except.error msg := by
  have hstmt : ∃ s ∈ body env, stmtModule s = some m := by
    rcases hm with hm | hm | hm | hm
    · subst hm
      exact ⟨Stmt.importAs "_pybinding" "_cpp", by simp [body], rfl⟩
    · rcases List.mem_map.mp hm with ⟨s, hs, rfl⟩
      refine ⟨Stmt.importAs ("pybinding." ++ s) s, ?_, rfl⟩
      have hmap : Stmt.importAs ("pybinding." ++ s) s ∈
          submoduleNames.map (fun x => Stmt.importAs ("pybinding." ++ x) x) :=
        List.mem_map.mpr ⟨s, hs, rfl⟩
      simp only [body, List.append_assoc, List.mem_append]
      tauto
    · subst hm
      exact ⟨Stmt.fromImport "pybinding.modifier" env.modifierAll,
        by simp [body], rfl⟩
    · subst hm
      exact ⟨Stmt.fromImport "pybinding.support.pickle" ["save", "load"],
        by simp [body], rfl⟩
  rcases hres : pybindingInit env with e | st
  · exact ⟨e, rfl⟩
  · exfalso
    rcases hstmt with ⟨s, hs, hsm⟩
    have hok := runStmts_ok_moduleOk env (body env) (initialState env) st
      hres s hs m hsm
    rw [hfail] at hok
    cases hok

/-- C4 witness: a broken `pybinding.solver` makes the whole import fail. -/
theorem c4_witness :
    ∃ msg, pybindingInit envBrokenSolver = Except.error msg :=
  c4_submodule_failure_fatal envBrokenSolver "pybinding.solver"
    (by decide) (by decide)

/-- C5: the Linux-branch flag update is idempotent (OR-ing the same bit twice
equals OR-ing it once), and re-running the whole module body from an
already-imported state does not error and leaves the flags unchanged. -/
theorem c5_reimport_idempotent (env : Env) (h : EnvOk env) :
    (∀ f, (f ||| RTLD_GLOBAL) ||| RTLD_GLOBAL = f ||| RTLD_GLOBAL)
    ∧ ∃ st st₂, pybindingInit env = Except.ok st
        ∧ runStmts env st (body env) = Except.ok st₂
        ∧ st₂.dlopenflags = st.dlopenflags := by
  have hid : ∀ f0, bodyFlags env (bodyFlags env f0) = bodyFlags env f0 := by
    intro f0
    rcases hp : platformIsLinux env.platform with _ | _
    · simp [bodyFlags, hp]
    · simp only [bodyFlags, hp, if_pos]
      rw [Nat.lor_assoc]
      simp
  constructor
  · intro f
    rw [Nat.lor_assoc]
    simp
  · refine ⟨finalState env, _, init_ok env h,
      runBody_ok env h.1 h.2 (finalState env), ?_⟩
    simp [finalState, hid]

/-- C5 witness: the concrete Linux environment. -/
theorem c5_witness :
    (∀ f, (f ||| RTLD_GLOBAL) ||| RTLD_GLOBAL = f ||| RTLD_GLOBAL)
    ∧ ∃ st st₂, pybindingInit envLinux2 = Except.ok st
        ∧ runStmts envLinux2 st (body envLinux2) = Except.ok st₂
        ∧ st₂.dlopenflags = st.dlopenflags :=
  c5_reimport_idempotent envLinux2 ⟨fun _ => rfl, fun _ _ => rfl⟩

/-- C7: the `setdlopenflags` statement of the fragment sets bit 8 (the
RTLD_GLOBAL bit), and no sequence of the fragment's statements ever clears
it afterwards: from any state with the bit set, any successful run ends with
the bit still set. -/
theorem c7_rtld_global_never_cleared :
    (∀ (env : Env) (st st' : PyState),
        execStmt env st (Stmt.setFlagsOr RTLD_GLOBAL) = Except.ok st' →
        st'.dlopenflags.testBit 8 = true)
    ∧ (∀ (env : Env) (stmts : List Stmt) (st st' : PyState),
        st.dlopenflags.testBit 8 = true →
        runStmts env st stmts = Except.ok st' →
        st'.dlopenflags.testBit 8 = true) := by
  constructor
  · intro env st st' h
    simp [execStmt] at h
    subst h
    have h8 : Nat.testBit RTLD_GLOBAL 8 = true := by decide
    simp [Nat.testBit_lor, h8]
  · intro env stmts
    induction stmts with
    | nil =>
      intro st st' hb h
      simp [runStmts] at h
      subst h
      exact hb
    | cons s rest ih =>
      intro st st' hb h
      rcases hexec : execStmt env st s with e | st₁
      · simp [runStmts, hexec] at h
      · simp only [runStmts, hexec] at h
        exact ih st₁ st' (execStmt_testBit8 env st st₁ s hb hexec) h

/-- C7 witness: a later flag write never clears the already-set bit 8. -/
theorem c7_witness :
    (PyState.mk 260 [] [Event.setFlags 260]).dlopenflags.testBit 8 = true :=
  c7_rtld_global_never_cleared.2 envLinux2 [Stmt.setFlagsOr 4]
    (PyState.mk 256 [] []) (PyState.mk 260 [] [Event.setFlags 260])
    (by decide) (by rfl)

/-- C10: the Linux-family platform test is a character-prefix match: the
loader workaround is part of the module body exactly when the platform
identifier starts with "linux"; in particular "linux2" triggers it and
"darwin" does not. -/
theorem c10_platform_check_prefix :
    (∀ env : Env,
      Stmt.setFlagsOr RTLD_GLOBAL ∈ body env ↔ "linux".data <+: env.platform.data)
    ∧ ("linux".data <+: "linux2".data)
    ∧ ¬ ("linux".data <+: "darwin".data) := by
  have hchar : ∀ p : String, platformIsLinux p = true ↔ "linux".data <+: p.data := by
    intro p
    simp [platformIsLinux, List.isPrefixOf_iff_prefix]
  refine ⟨?_, by decide, by decide⟩
  intro env
  rw [← hchar]
  rcases hp : platformIsLinux env.platform with _ | _
  · simp [body, hp, submoduleNames]
  · simp [body, hp]

/-- C10 witness: the concrete Linux environment is in the branch-taking set. -/
theorem c10_witness :
    Stmt.setFlagsOr RTLD_GLOBAL ∈ body envLinux2 ↔
      "linux".data <+: envLinux2.platform.data :=
  c10_platform_check_prefix.1 envLinux2

/-- The state a successful import ends in is `finalState`. -/
theorem ok_finalState (env : Env) (h : EnvOk env) (st : PyState)
    (hok : pybindingInit env = Except.ok st) : st = finalState env := by
  have h0 := init_ok env h
  rw [hok] at h0
  exact Except.ok.inj h0

/-- The bit mask `RTLD_GLOBAL` has only bit 8 set. -/
theorem testBit_RTLD_GLOBAL (i : Nat) (hi : i ≠ 8) :
    Nat.testBit RTLD_GLOBAL i = false := by
  rcases Nat.lt_or_ge i 9 with h9 | h9
  · interval_cases i <;> revert hi <;> decide
  · have hlt : RTLD_GLOBAL < 2 ^ i := by
      calc RTLD_GLOBAL < 2 ^ 9 := by norm_num [RTLD_GLOBAL]
      _ ≤ 2 ^ i := Nat.pow_le_pow_right (by norm_num) h9
    exact Nat.testBit_lt_two_pow hlt

/-- C2: exactly on Linux-family platforms, a successful import loads
scipy.sparse.linalg under the starting (default) dlopenflags and immediately
afterwards writes the starting flags OR-ed with RTLD_GLOBAL; the final flags
equal that OR, bit 8 ends up set, and every other bit is unchanged. -/
theorem c2_linux_loader_workaround (env : Env) (h : EnvOk env) (st : PyState)
    (hok : pybindingInit env = Except.ok st) :
    (platformIsLinux env.platform = true ↔
      ∃ pre post, st.trace =
        pre ++ Event.importMod "scipy.sparse.linalg" env.initialFlags
          :: Event.setFlags (env.initialFlags ||| RTLD_GLOBAL) :: post)
    ∧ (platformIsLinux env.platform = true →
        st.dlopenflags = env.initialFlags ||| RTLD_GLOBAL
        ∧ st.dlopenflags.testBit 8 = true
        ∧ ∀ i, i ≠ 8 → st.dlopenflags.testBit i = env.initialFlags.testBit i) := by
  have hst := ok_finalState env h st hok
  subst hst
  constructor
  · constructor
    · intro hp
      refine ⟨[Event.importMod "os" env.initialFlags,
               Event.importMod "sys" env.initialFlags],
              postBranchTrace (bodyFlags env env.initialFlags), ?_⟩
      simp [finalState, bodyTrace, hp]
    · intro hex
      rcases hb : platformIsLinux env.platform with _ | _
      · exfalso
        rcases hex with ⟨pre, post, htr⟩
        have hmem : Event.setFlags (env.initialFlags ||| RTLD_GLOBAL)
            ∈ (finalState env).trace := by
          rw [htr]
          simp
        have hno : ∀ v, Event.setFlags v ∉ (finalState env).trace := by
          intro v
          simp [finalState, bodyTrace, hb, postBranchTrace, submoduleNames]
        exact hno _ hmem
      · rfl
  · intro hp
    have h8 : Nat.testBit RTLD_GLOBAL 8 = true := by decide
    refine ⟨by simp [finalState, bodyFlags, hp], ?_, ?_⟩
    · simp [finalState, bodyFlags, hp, Nat.testBit_lor, h8]
    · intro i hi
      simp [finalState, bodyFlags, hp, Nat.testBit_lor, testBit_RTLD_GLOBAL i hi]

/-- C2 witness: the concrete Linux environment. -/
theorem c2_witness :
    (platformIsLinux envLinux2.platform = true ↔
      ∃ pre post, (finalState envLinux2).trace =
        pre ++ Event.importMod "scipy.sparse.linalg" envLinux2.initialFlags
          :: Event.setFlags (envLinux2.initialFlags ||| RTLD_GLOBAL) :: post)
    ∧ (platformIsLinux envLinux2.platform = true →
        (finalState envLinux2).dlopenflags = envLinux2.initialFlags ||| RTLD_GLOBAL
        ∧ (finalState envLinux2).dlopenflags.testBit 8 = true
        ∧ ∀ i, i ≠ 8 → (finalState envLinux2).dlopenflags.testBit i
            = envLinux2.initialFlags.testBit i) :=
  c2_linux_loader_workaround envLinux2 ⟨fun _ => rfl, fun _ _ => rfl⟩
    (finalState envLinux2) (init_ok envLinux2 ⟨fun _ => rfl, fun _ _ => rfl⟩)

/-- C6: on Linux, a successful import performs its loader-relevant steps in
exactly this order: load scipy.sparse.linalg under the starting flags, write
the OR-ed flags, load the compiled extension `_pybinding`, import the six
sibling modules supplying the re-exports, then import the twelve
submodules — all post-workaround loads happening under the new flags. -/
theorem c6_initialization_order (env : Env) (h : EnvOk env)
    (hp : platformIsLinux env.platform = true) (st : PyState)
    (hok : pybindingInit env = Except.ok st) :
    st.trace =
      [Event.importMod "os" env.initialFlags,
       Event.importMod "sys" env.initialFlags,
       Event.importMod "scipy.sparse.linalg" env.initialFlags,
       Event.setFlags (env.initialFlags ||| RTLD_GLOBAL),
       Event.importMod "_pybinding" (env.initialFlags ||| RTLD_GLOBAL),
       Event.importMod "pybinding.model" (env.initialFlags ||| RTLD_GLOBAL),
       Event.importMod "pybinding.lattice" (env.initialFlags ||| RTLD_GLOBAL),
       Event.importMod "pybinding.modifier" (env.initialFlags ||| RTLD_GLOBAL),
       Event.importMod "pybinding.results" (env.initialFlags ||| RTLD_GLOBAL),
       Event.importMod "pybinding.support.pickle" (env.initialFlags ||| RTLD_GLOBAL),
       Event.importMod "pybinding.parallel" (env.initialFlags ||| RTLD_GLOBAL)]
      ++ submoduleNames.map
           (fun s => Event.importMod ("pybinding." ++ s)
             (env.initialFlags ||| RTLD_GLOBAL)) := by
  have hst := ok_finalState env h st hok
  subst hst
  simp [finalState, bodyTrace, postBranchTrace, bodyFlags, hp, submoduleNames]

/-- C6 witness: the concrete Linux environment. -/
theorem c6_witness :
    (finalState envLinux2).trace =
      [Event.importMod "os" envLinux2.initialFlags,
       Event.importMod "sys" envLinux2.initialFlags,
       Event.importMod "scipy.sparse.linalg" envLinux2.initialFlags,
       Event.setFlags (envLinux2.initialFlags ||| RTLD_GLOBAL),
       Event.importMod "_pybinding" (envLinux2.initialFlags ||| RTLD_GLOBAL),
       Event.importMod "pybinding.model" (envLinux2.initialFlags ||| RTLD_GLOBAL),
       Event.importMod "pybinding.lattice" (envLinux2.initialFlags ||| RTLD_GLOBAL),
       Event.importMod "pybinding.modifier" (envLinux2.initialFlags ||| RTLD_GLOBAL),
       Event.importMod "pybinding.results" (envLinux2.initialFlags ||| RTLD_GLOBAL),
       Event.importMod "pybinding.support.pickle" (envLinux2.initialFlags ||| RTLD_GLOBAL),
       Event.importMod "pybinding.parallel" (envLinux2.initialFlags ||| RTLD_GLOBAL)]
      ++ submoduleNames.map
           (fun s => Event.importMod ("pybinding." ++ s)
             (envLinux2.initialFlags ||| RTLD_GLOBAL)) :=
  c6_initialization_order envLinux2 ⟨fun _ => rfl, fun _ _ => rfl⟩ (by decide)
    (finalState envLinux2) (init_ok envLinux2 ⟨fun _ => rfl, fun _ _ => rfl⟩)

/-- The eight individually re-exported names, as the spec lists them. -/
def specExportedNames : List String :=
  ["Model", "Lattice", "make_lattice", "make_path", "save", "load",
   "parallel_for", "parallelize"]

/-- The exact set of top-level names the claim asserts: the eight re-exports,
the modifier wildcard names, and the twelve submodules — nothing else. -/
def specClaimedNames (env : Env) : List String :=
  specExportedNames ++ env.modifierAll ++ submoduleNames

/-- C1 counterexample: in a concrete environment where the import succeeds,
the top-level namespace contains the name "os", which is not among the names
the claim enumerates — so the namespace does not expose exactly the claimed
names. -/
theorem c1_counterexample :
    pybindingInit envDarwin = Except.ok (finalState envDarwin)
    ∧ "os" ∈ boundNames (finalState envDarwin)
    ∧ "os" ∉ specClaimedNames envDarwin :=
  ⟨init_ok envDarwin ⟨fun _ => rfl, fun _ _ => rfl⟩, by decide, by decide⟩

/-- Two lists each included in the other have the same members. -/
theorem mem_iff_of_ball {l₁ l₂ : List String}
    (h₁ : ∀ a ∈ l₁, a ∈ l₂) (h₂ : ∀ a ∈ l₂, a ∈ l₁) (a : String) :
    a ∈ l₁ ↔ a ∈ l₂ :=
  ⟨fun hm => h₁ a hm, fun hm => h₂ a hm⟩

/-- C1 (amended): after a successful import the top-level namespace exposes
exactly the eight re-exports, the modifier wildcard names, the twelve
submodules, and additionally the bindings "os", "sys" and "_cpp" made by the
module's own import statements, the parent-package bindings "modifier" and
"support" created when those submodules load — plus "scipy" on Linux-family
platforms.  (The parent-package bindings "model", "lattice", "results" and
"parallel" are also created, but those names are already among the twelve
submodules.) -/
theorem c1_amended_namespace (env : Env) (h : EnvOk env) (st : PyState)
    (hok : pybindingInit env = Except.ok st) (n : String) :
    n ∈ boundNames st ↔
      (n ∈ specExportedNames ∨ n ∈ env.modifierAll ∨ n ∈ submoduleNames
        ∨ n = "os" ∨ n = "sys" ∨ n = "_cpp" ∨ n = "modifier" ∨ n = "support"
        ∨ (platformIsLinux env.platform = true ∧ n = "scipy")) := by
  have hst := ok_finalState env h st hok
  subst hst
  rcases hp : platformIsLinux env.platform with _ | _
  · simp [boundNames, finalState, bodyBindings, submoduleNames,
      specExportedNames, hp]
    by_cases hmem : n ∈ env.modifierAll
    · simp [hmem]
    · simp only [hmem, false_or, or_false]
      simp only [← List.mem_singleton]
      simp only [← List.mem_append]
      exact mem_iff_of_ball (by decide) (by decide) n
  · simp [boundNames, finalState, bodyBindings, submoduleNames,
      specExportedNames, hp]
    by_cases hmem : n ∈ env.modifierAll
    · simp [hmem]
    · simp only [hmem, false_or, or_false]
      simp only [← List.mem_singleton]
      simp only [← List.mem_append]
      exact mem_iff_of_ball (by decide) (by decide) n

/-- C1 witness for the amended statement, at the name "support". -/
theorem c1_witness :
    "support" ∈ boundNames (finalState envLinux2) ↔
      ("support" ∈ specExportedNames ∨ "support" ∈ envLinux2.modifierAll
        ∨ "support" ∈ submoduleNames ∨ "support" = "os" ∨ "support" = "sys"
        ∨ "support" = "_cpp" ∨ "support" = "modifier" ∨ "support" = "support"
        ∨ (platformIsLinux envLinux2.platform = true ∧ "support" = "scipy")) :=
  c1_amended_namespace envLinux2 ⟨fun _ => rfl, fun _ _ => rfl⟩
    (finalState envLinux2) (init_ok envLinux2 ⟨fun _ => rfl, fun _ _ => rfl⟩)
    "support"

/-- C9: beyond the curated public names, a successful import also leaves the
module's own import statements' bindings "os", "sys" and "_cpp" in the
top-level namespace, with "_cpp" bound to the compiled extension module. -/
theorem c9_internal_bindings (env : Env) (h : EnvOk env) (st : PyState)
    (hok : pybindingInit env = Except.ok st) :
    "os" ∈ boundNames st ∧ "sys" ∈ boundNames st ∧ "_cpp" ∈ boundNames st := by
  have hst := ok_finalState env h st hok
  subst hst
  refine ⟨?_, ?_, ?_⟩ <;>
    simp [boundNames, finalState, bodyBindings, submoduleNames]

/-- C9 witness: the concrete Linux environment. -/
theorem c9_witness :
    "os" ∈ boundNames (finalState envLinux2)
    ∧ "sys" ∈ boundNames (finalState envLinux2)
    ∧ "_cpp" ∈ boundNames (finalState envLinux2) :=
  c9_internal_bindings envLinux2 ⟨fun _ => rfl, fun _ _ => rfl⟩
    (finalState envLinux2) (init_ok envLinux2 ⟨fun _ => rfl, fun _ _ => rfl⟩)

/-- A name the modifier wildcard does contribute is looked up in its
bindings. -/
theorem lookup_modifier_hit (env : Env) (n : String) (hn : n ∈ env.modifierAll)
    (rest : List (String × PyObj)) :
    ((env.modifierAll.map (fun x => (x, attrVal env "pybinding.modifier" x))).reverse
      ++ rest).lookup n = some (attrVal env "pybinding.modifier" n) := by
  apply lookup_append_left
  rw [← List.map_reverse]
  exact lookup_map_self n _ env.modifierAll.reverse (List.mem_reverse.mpr hn)

/-- The keys of the submodule bindings are the twelve submodule names. -/
theorem map_fst_submodule_bindings :
    ((submoduleNames.map
      (fun s => (s, PyObj.module ("pybinding." ++ s)))).reverse).map Prod.fst
      = submoduleNames.reverse := by
  decide

/-- C8: every re-exported top-level name is bound to the identical object the
originating submodule exports — the attribute itself, unfiltered and
untransformed.  The non-collision hypotheses cover the only way a later
statement of the body could rebind a name (the wildcard shadowing a
re-export, or a later re-export or submodule import shadowing a wildcard
name); in the real package these name sets are disjoint. -/
theorem c8_reexports_identical (env : Env) (h : EnvOk env) (st : PyState)
    (hok : pybindingInit env = Except.ok st)
    (hM : "Model" ∉ env.modifierAll) (hL : "Lattice" ∉ env.modifierAll)
    (hml : "make_lattice" ∉ env.modifierAll) :
    lookupName st "Model" = env.moduleAttr "pybinding.model" "Model"
    ∧ lookupName st "Lattice" = env.moduleAttr "pybinding.lattice" "Lattice"
    ∧ lookupName st "make_lattice" = env.moduleAttr "pybinding.lattice" "make_lattice"
    ∧ lookupName st "make_path" = env.moduleAttr "pybinding.results" "make_path"
    ∧ lookupName st "save" = env.moduleAttr "pybinding.support.pickle" "save"
    ∧ lookupName st "load" = env.moduleAttr "pybinding.support.pickle" "load"
    ∧ lookupName st "parallel_for" = env.moduleAttr "pybinding.parallel" "parallel_for"
    ∧ lookupName st "parallelize" = env.moduleAttr "pybinding.parallel" "parallelize"
    ∧ (∀ n ∈ env.modifierAll,
        n ∉ ["make_path", "save", "load", "parallel_for", "parallelize"] →
        n ≠ "support" →
        n ∉ submoduleNames →
        lookupName st n = env.moduleAttr "pybinding.modifier" n) := by
  have hst := ok_finalState env h st hok
  subst hst
  refine ⟨?_, ?_, ?_, ?_, ?_, ?_, ?_, ?_, ?_⟩
  · rw [← some_attrVal env h.2]
    simp [lookupName, finalState, bodyBindings, submoduleNames, List.lookup,
      lookup_append_of_not_mem, List.append_assoc, hM]
  · rw [← some_attrVal env h.2]
    simp [lookupName, finalState, bodyBindings, submoduleNames, List.lookup,
      lookup_append_of_not_mem, List.append_assoc, hL]
  · rw [← some_attrVal env h.2]
    simp [lookupName, finalState, bodyBindings, submoduleNames, List.lookup,
      lookup_append_of_not_mem, List.append_assoc, hml]
  · rw [← some_attrVal env h.2]
    simp [lookupName, finalState, bodyBindings, submoduleNames, List.lookup,
      lookup_append_of_not_mem, List.append_assoc]
  · rw [← some_attrVal env h.2]
    simp [lookupName, finalState, bodyBindings, submoduleNames, List.lookup,
      lookup_append_of_not_mem, List.append_assoc]
  · rw [← some_attrVal env h.2]
    simp [lookupName, finalState, bodyBindings, submoduleNames, List.lookup,
      lookup_append_of_not_mem, List.append_assoc]
  · rw [← some_attrVal env h.2]
    simp [lookupName, finalState, bodyBindings, submoduleNames, List.lookup,
      lookup_append_of_not_mem, List.append_assoc]
  · rw [← some_attrVal env h.2]
    simp [lookupName, finalState, bodyBindings, submoduleNames, List.lookup,
      lookup_append_of_not_mem, List.append_assoc]
  · intro n hn hn5 hnsupp hnsub
    rw [← some_attrVal env h.2]
    simp only [lookupName, finalState, bodyBindings, List.append_assoc]
    have hA : n ∉ ((submoduleNames.map
        (fun s => (s, PyObj.module ("pybinding." ++ s)))).reverse).map Prod.fst := by
      rw [map_fst_submodule_bindings, List.mem_reverse]
      exact hnsub
    have hB : n ∉ ([("parallelize", attrVal env "pybinding.parallel" "parallelize"),
        ("parallel_for", attrVal env "pybinding.parallel" "parallel_for"),
        ("parallel", PyObj.module "pybinding.parallel"),
        ("load", attrVal env "pybinding.support.pickle" "load"),
        ("save", attrVal env "pybinding.support.pickle" "save"),
        ("support", PyObj.module "pybinding.support"),
        ("make_path", attrVal env "pybinding.results" "make_path"),
        ("results", PyObj.module "pybinding.results")]).map Prod.fst := by
      intro hm
      simp only [List.map_cons, List.map_nil, List.mem_cons,
        List.not_mem_nil, or_false] at hm
      simp only [List.mem_cons, List.not_mem_nil, or_false] at hn5
      push_neg at hn5
      rcases hm with hm | hm | hm | hm | hm | hm | hm | hm
      · exact hn5.2.2.2.2 hm
      · exact hn5.2.2.2.1 hm
      · subst hm
        exact hnsub (by decide)
      · exact hn5.2.2.1 hm
      · exact hn5.2.1 hm
      · exact hnsupp hm
      · exact hn5.1 hm
      · subst hm
        exact hnsub (by decide)
    rw [lookup_append_of_not_mem n _ _ hA, lookup_append_of_not_mem n _ _ hB,
      lookup_modifier_hit env n hn]

/-- C8 witness: the concrete Linux environment, whose modifier wildcard
contributes the single name "constant_potential". -/
theorem c8_witness :
    lookupName (finalState envLinux2) "Model"
      = envLinux2.moduleAttr "pybinding.model" "Model"
    ∧ lookupName (finalState envLinux2) "Lattice"
      = envLinux2.moduleAttr "pybinding.lattice" "Lattice"
    ∧ lookupName (finalState envLinux2) "make_lattice"
      = envLinux2.moduleAttr "pybinding.lattice" "make_lattice"
    ∧ lookupName (finalState envLinux2) "make_path"
      = envLinux2.moduleAttr "pybinding.results" "make_path"
    ∧ lookupName (finalState envLinux2) "save"
      = envLinux2.moduleAttr "pybinding.support.pickle" "save"
    ∧ lookupName (finalState envLinux2) "load"
      = envLinux2.moduleAttr "pybinding.support.pickle" "load"
    ∧ lookupName (finalState envLinux2) "parallel_for"
      = envLinux2.moduleAttr "pybinding.parallel" "parallel_for"
    ∧ lookupName (finalState envLinux2) "parallelize"
      = envLinux2.moduleAttr "pybinding.parallel" "parallelize"
    ∧ (∀ n ∈ envLinux2.modifierAll,
        n ∉ ["make_path", "save", "load", "parallel_for", "parallelize"] →
        n ≠ "support" →
        n ∉ submoduleNames →
        lookupName (finalState envLinux2) n
          = envLinux2.moduleAttr "pybinding.modifier" n) :=
  c8_reexports_identical envLinux2 ⟨fun _ => rfl, fun _ _ => rfl⟩
    (finalState envLinux2) (init_ok envLinux2 ⟨fun _ => rfl, fun _ _ => rfl⟩)
    (by decide) (by decide) (by decide)

end Pybinding
